import Mathlib

/-!
Verification of the wastewater no-swim-zone pipeline (`src/main.py`,
`src/geojson2kmlGDrive.py`).

The embedding models the geometry library's boolean algebra with finite point
sets over exact rational coordinates (`Finset (ℚ × ℚ)`): `difference` is set
difference, `cascaded_union` is iterated union and `is_empty` is equality with
the empty set.  External collaborators (the upstream HTTP API, the WKT parser,
the reprojection/buffer composite, the GCS blob service, the Drive service and
the KML sync) are modelled as explicit oracle outcomes carried in an
environment record, so the orchestration of `check_for_changes` is a pure
function from the environment and the stored GCS state to a run trace.
-/

namespace Wastewater

/-- A WGS84 coordinate (longitude, latitude) with exact rational components. -/
abbrev Coord := ℚ × ℚ

/-- Point-set semantics of a shapely geometry. -/
abbrev Geom := Finset Coord

/-- Outcome of the external `shapely.wkt.loads` call on the
`receiverLocation` field: either the parse raises, or it returns a geometry,
which for the WKT point strings of this feed is a point or the empty
geometry (`none`). -/
inductive WktParse
  | fail
  | ok (g : Option Coord)
deriving DecidableEq

/-- The (normalised) properties of one upstream facility record, i.e. the
dictionary `props = plant_feature.get('properties', plant_feature)` of
`calculate_new_zones` in `src/main.py`.  A `none` field is an absent key.
`is_compliant` distinguishes an absent key (`none`) from a key present with a
JSON null (`some none`) because `props.get('is_compliant', True)` treats the
two differently.  `receiverLocation = none` covers both a missing key and a
falsy (empty) WKT string, since the code guards with `if receiver_location_wkt`. -/
structure PlantProps where
  code : Option String := none
  name : Option String := none
  receiverName : Option String := none
  receiverNameEn : Option String := none
  receiverWaterType : Option String := none
  latitude : Option ℚ := none
  longitude : Option ℚ := none
  receiverLocation : Option WktParse := none
  is_compliant : Option (Option Bool) := none
deriving DecidableEq

/-- Python `d.get(key, default)` for a nullable boolean field: an absent key
yields the default, a present key yields its (possibly null) value. -/
def pyGetBool (v : Option (Option Bool)) (dflt : Option Bool) : Option Bool :=
  match v with
  | none => dflt
  | some b => b

/-- Render an optional string the way a Python f-string renders a value that
may be `None`. -/
def optStr (s : Option String) : String :=
  match s with
  | none => "None"
  | some v => v

/-- The properties dictionary stored on an emitted GeoJSON feature
(`kml_properties` in `calculate_new_zones` of `src/main.py`): the original
metadata plus `location`, `Column1.compliance` and `details`.  `compliance`
holds the value of the `Column1.compliance` key; `none` means the key is
absent (possible when the converter is fed foreign GeoJSON). -/
structure KmlProps where
  location : Option String := none
  compliance : Option Bool := none
  details : String := ""
  code : Option String := none
  name : Option String := none
  receiverName : Option String := none
  receiverNameEn : Option String := none
  receiverWaterType : Option String := none
  latitude : Option ℚ := none
  longitude : Option ℚ := none
deriving DecidableEq

/-- Builds `kml_properties` from a facility's props, as `calculate_new_zones`
does: `location` is the metadata `name` value, `Column1.compliance` is
`props.get('is_compliant', True)` and `details` interpolates the metadata
`code` and `receiverName` values (which render as `None` when absent, since
the metadata dictionary always carries the keys). -/
def mkKmlProps (props : PlantProps) : KmlProps :=
  let c := optStr props.code
  let r := optStr props.receiverName
  { location := props.name
  , compliance := pyGetBool props.is_compliant (some true)
  , details := s!"Code: {c}. Receiver: {r}"
  , code := props.code
  , name := props.name
  , receiverName := props.receiverName
  , receiverNameEn := props.receiverNameEn
  , receiverWaterType := props.receiverWaterType
  , latitude := props.latitude
  , longitude := props.longitude }

/-- An emitted GeoJSON feature of the Zone Collection. -/
structure Feature where
  geometry : Geom
  properties : KmlProps
deriving DecidableEq

/-- The fallback of the discharge-point resolution: an explicit point from the
`longitude`/`latitude` fields when both are present. -/
def fallbackPoint (props : PlantProps) : Option (Option Coord) :=
  match props.longitude, props.latitude with
  | some lon, some lat => some (some (lon, lat))
  | _, _ => none

/-- Resolution of the discharge point (`point_wgs84` in
`calculate_new_zones`): prefer the parsed WKT field; when the field is absent
or its parse raises, fall back to the explicit longitude/latitude fields.
`none` means `point_wgs84` stayed `None`; `some none` means it resolved to an
empty geometry. -/
def resolvePoint (props : PlantProps) : Option (Option Coord) :=
  match props.receiverLocation with
  | some (WktParse.ok g) => some g
  | some WktParse.fail => fallbackPoint props
  | none => fallbackPoint props

/-- `cascaded_union` over the loaded region geometries. -/
def unifiedRegions (regions : List Geom) : Geom :=
  regions.foldr (fun g acc => g ∪ acc) ∅

/-- The per-facility body of the loop in `calculate_new_zones`.  `bufferFn`
is the external composite of steps 2-4 (project to the metric grid, buffer by
`BUFFER_DISTANCE_METERS`, project back); an `error` outcome models any
exception raised while processing this facility, which the `except` clause of
the loop converts into a skip.  Returns the emitted feature, or `none` when
the facility is skipped (missing/empty point, per-facility exception, or an
empty buffer-minus-land difference). -/
def processPlant (bufferFn : Coord → Except Unit Geom) (unified : Geom)
    (plant : PlantProps) : Option Feature :=
  match resolvePoint plant with
  | none => none
  | some none => none
  | some (some p) =>
    match bufferFn p with
    | Except.error _ => none
    | Except.ok buf =>
      let dz := buf \ unified
      if dz = ∅ then none
      else some { geometry := dz, properties := mkKmlProps plant }

/-- The fetched wastewater payload: a dict with a `features` key, a bare list,
or anything else (invalid format). -/
inductive WData
  | featureCollection (features : List PlantProps)
  | plainList (features : List PlantProps)
  | invalid
deriving DecidableEq

/-- The format dispatch at the top of `calculate_new_zones`. -/
def featuresToProcess : WData → Option (List PlantProps)
  | WData.featureCollection fs => some fs
  | WData.plainList fs => some fs
  | WData.invalid => none

/-- `calculate_new_zones` of `src/main.py`: guard on an empty region list,
union the regions once, dispatch on the payload format, and run the
per-facility loop, collecting the emitted features. -/
def calculate_new_zones (bufferFn : Coord → Except Unit Geom)
    (perifereies : List Geom) (wdata : WData) : List Feature :=
  if perifereies = [] then []
  else
    match featuresToProcess wdata with
    | none => []
    | some fs => fs.filterMap (processPlant bufferFn (unifiedRegions perifereies))

/-! ### KML conversion (`geojson_to_kml`) -/

/-- The KML colors the converter can assign: `simplekml.Color.red`,
`changealphaint(150, simplekml.Color.blue)` and white (line style). -/
inductive KmlColor
  | red
  | blueAlpha
  | white
deriving DecidableEq

/-- The style branch of `geojson_to_kml` in `src/main.py`:
`if compliance is False: red else: semi-transparent blue`. -/
def complianceColor (compliance : Option Bool) : KmlColor :=
  if compliance = some false then KmlColor.red else KmlColor.blueAlpha

/-- The compliance line of the generated description:
`'NON-COMPLIANT' if compliance is False else 'Compliant'`. -/
def complianceText (compliance : Option Bool) : String :=
  if compliance = some false then "NON-COMPLIANT" else "Compliant"

/-- A linear ring as stored in GeoJSON `coordinates`. -/
abbrev Ring := List Coord

/-- The geometry member of a stored GeoJSON feature, as read back by the
converter. -/
inductive GeoJsonGeom
  | polygon (rings : List Ring)
  | multiPolygon (polys : List (List Ring))
  | point (c : Coord)
  | otherType
deriving DecidableEq

/-- A feature of the stored GeoJSON FeatureCollection fed to the converter. -/
structure GeoFeature where
  geometry : GeoJsonGeom
  properties : KmlProps
deriving DecidableEq

/-- A KML `<Polygon>` placemark produced by the converter: only a name, an
outer boundary and a fill color are set; no inner boundary ever is. -/
structure KmlPolygon where
  name : String
  outerboundaryis : Ring
  color : KmlColor
deriving DecidableEq

/-- `coordinates[0]` / `polygon[0]`: the outer ring of a ring list. -/
def outerRing (rings : List Ring) : Ring := rings.headD []

/-- The `enumerate` loop over MultiPolygon parts: part `i` (0-based) becomes a
placemark named `location Part i+1` whose boundary is that part's outer ring. -/
def multiParts (location : String) (color : KmlColor) :
    Nat → List (List Ring) → List KmlPolygon
  | _, [] => []
  | i, poly :: rest =>
    let j := i + 1
    { name := s!"{location} Part {j}", outerboundaryis := outerRing poly, color := color }
      :: multiParts location color (i + 1) rest

/-- The placemarks `geojson_to_kml` of `src/main.py` emits for one feature: a
Polygon yields one placemark from its outer ring, a MultiPolygon yields one
per part from each part's outer ring, anything else yields none. -/
def kmlFeaturePolygons (f : GeoFeature) : List KmlPolygon :=
  let location := f.properties.location.getD "Unknown Location"
  let color := complianceColor f.properties.compliance
  match f.geometry with
  | GeoJsonGeom.polygon rings =>
    [{ name := location, outerboundaryis := outerRing rings, color := color }]
  | GeoJsonGeom.multiPolygon polys => multiParts location color 0 polys
  | GeoJsonGeom.point _ => []
  | GeoJsonGeom.otherType => []

/-- `geojson_to_kml` over a whole FeatureCollection. -/
def geojson_to_kml (features : List GeoFeature) : List KmlPolygon :=
  (features.map kmlFeaturePolygons).flatten

/-- The filled area enclosed by a ring list with holes: the fill of the outer
ring minus the fills of the interior rings.  `fill` is the geometric
interpretation of one ring as a filled region. -/
def ringsRegion (fill : Ring → Geom) (rings : List Ring) : Geom :=
  match rings with
  | [] => ∅
  | outer :: holes => fill outer \ (holes.foldr (fun h acc => fill h ∪ acc) ∅)

/-- The area covered by a stored GeoJSON geometry under a ring
interpretation `fill`. -/
def geoRegion (fill : Ring → Geom) : GeoJsonGeom → Geom
  | GeoJsonGeom.polygon rings => ringsRegion fill rings
  | GeoJsonGeom.multiPolygon polys =>
    polys.foldr (fun p acc => ringsRegion fill p ∪ acc) ∅
  | GeoJsonGeom.point _ => ∅
  | GeoJsonGeom.otherType => ∅

/-- The area covered by a list of emitted KML placemarks: hole-free fills of
their outer boundaries. -/
def kmlRegion (fill : Ring → Geom) (ps : List KmlPolygon) : Geom :=
  ps.foldr (fun p acc => fill p.outerboundaryis ∪ acc) ∅

/-! ### Google Drive publishing (`upload_to_drive`) -/

/-- One object held by the Drive sink. -/
structure DriveFile where
  id : Nat
  name : String
  parents : Option String
  content : String
  trashed : Bool
deriving DecidableEq

/-- The Drive sink: its objects plus a counter supplying fresh object ids. -/
structure DriveState where
  files : List DriveFile
  nextId : Nat
deriving DecidableEq

/-- The lookup query of `upload_to_drive`:
`name='{filename}' and trashed=false`, plus `'{folder_id}' in parents` when a
folder scope is given. -/
def matchesQuery (filename : String) (folderId : Option String)
    (f : DriveFile) : Bool :=
  f.name == filename && f.trashed == false &&
    (match folderId with
     | some fid => f.parents == some fid
     | none => true)

/-- The value returned by a successful `upload_to_drive` call. -/
structure UploadResult where
  file_id : Nat
  action : String
deriving DecidableEq

/-- `files().update`: overwrite the content of the object with the given id,
in place. -/
def updateFileContent (files : List DriveFile) (fid : Nat) (content : String) :
    List DriveFile :=
  files.map (fun f => if f.id = fid then { f with content := content } else f)

/-- `upload_to_drive` of `src/main.py`: list the sink for objects matching the
logical key; update the first match in place, else create a fresh object; then
run the `permissions().create` access grant.  `grantOk = false` models the
grant call raising: the surrounding `except` logs and re-raises, so the call
returns an error, but the sink state it produced is kept (no rollback). -/
def upload_to_drive (grantOk : Bool) (file_content : String) (filename : String)
    (folder_id : Option String) (st : DriveState) :
    Except Unit UploadResult × DriveState :=
  match st.files.filter (matchesQuery filename folder_id) with
  | f :: _ =>
    let st' : DriveState := { st with files := updateFileContent st.files f.id file_content }
    if grantOk then (Except.ok { file_id := f.id, action := "updated" }, st')
    else (Except.error (), st')
  | [] =>
    let nf : DriveFile :=
      { id := st.nextId, name := filename, parents := folder_id
      , content := file_content, trashed := false }
    let st' : DriveState := { files := st.files ++ [nf], nextId := st.nextId + 1 }
    if grantOk then (Except.ok { file_id := nf.id, action := "created" }, st')
    else (Except.error (), st')

/-! ### Orchestration (`check_for_changes`) -/

/-- The persistent GCS state the pipeline reads and writes: the Change Record
hash blob (`none` = blob does not exist) and the primary GeoJSON artifact. -/
structure Gcs where
  hash : Option String := none
  geojson : Option (List Feature) := none
deriving DecidableEq

/-- The HTTP response of a run, or an uncaught exception escaping the
function body. -/
inductive Outcome
  | resp (msg : String) (code : Nat)
  | crash
deriving DecidableEq

/-- Oracle outcomes of the external collaborators of one run.  Each flag
models whether the corresponding blocking call raises; `regions = none`
models `load_perifereies_data` returning `None` on error; `sync` is the
outcome of `sync_to_drive_internal` (the Drive action string on success). -/
structure Env where
  fetch : Except Unit WData
  hashExistsRaises : Bool := false
  hashDownloadRaises : Bool := false
  regions : Option (List Geom) := none
  bufferFn : Coord → Except Unit Geom := fun _ => Except.ok ∅
  geojsonUploadRaises : Bool := false
  hashUploadRaises : Bool := false
  sync : Except Unit String := Except.ok "updated"

/-- Trace of one run of `check_for_changes`: the final GCS state, the HTTP
outcome, and which phases ran (`regionsAttempted`: `load_perifereies_data`
was called; `recomputed`: `calculate_new_zones` was called; `syncTriggered`:
`sync_to_drive_internal` was called; `published`: the primary GeoJSON upload
succeeded; `emptyResult`: the run took the empty-zones branch). -/
structure Run where
  st : Gcs
  out : Outcome
  regionsAttempted : Bool
  recomputed : Bool
  syncTriggered : Bool
  published : Bool
  emptyResult : Bool
deriving DecidableEq

/-- Record constructor shorthand for a `Run`. -/
def mkRun (st : Gcs) (out : Outcome) (ra rc sy pub emp : Bool) : Run :=
  { st := st, out := out, regionsAttempted := ra, recomputed := rc
  , syncTriggered := sy, published := pub, emptyResult := emp }

/-- Part 1 of `check_for_changes`: does the hash check hit the unchanged
(SKIP) branch?  An exception from `exists()` or `download_as_text()` is
caught and the run proceeds with the analysis; a missing blob also proceeds. -/
def skipHit (st : Gcs) (env : Env) (current : String) : Bool :=
  if env.hashExistsRaises then false
  else
    match st.hash with
    | none => false
    | some last => if env.hashDownloadRaises then false else current == last

/-- The SKIP branch: call `sync_to_drive_internal` anyway to heal the KML
copy; report its outcome.  No GCS state changes. -/
def runSkip (st : Gcs) (env : Env) : Run :=
  match env.sync with
  | Except.ok a =>
    mkRun st (Outcome.resp (s!"No data changes. KML Drive sync: {a}.") 200)
      false false true false false
  | Except.error _ =>
    mkRun st (Outcome.resp "No data changes. KML Drive sync failed." 500)
      false false true false false

/-- Parts 2 and 3 of `check_for_changes`: load regions, recompute the zones,
publish the GeoJSON, commit the hash, then sync the KML.  Mirrors the source
branch for branch: a region-load error returns 500; an empty zone list
commits the hash without publishing (an uncaught raise of that upload crashes
the function); a raise in the publish `try` (GeoJSON upload or hash upload)
returns 500 without committing the hash; a KML sync failure after a
successful publish still returns 200. -/
def runCompute (st : Gcs) (env : Env) (current : String) (wdata : WData) : Run :=
  match env.regions with
  | none =>
    mkRun st (Outcome.resp "Failed to load perifereies data." 500)
      true false false false false
  | some perifereies =>
    let zones := calculate_new_zones env.bufferFn perifereies wdata
    if zones = [] then
      if env.hashUploadRaises then mkRun st Outcome.crash true true false false true
      else
        mkRun { st with hash := some current }
          (Outcome.resp "Analysis complete. No zones saved." 200)
          true true false false true
    else
      if env.geojsonUploadRaises then
        mkRun st (Outcome.resp "Failed to save GeoJSON results." 500)
          true true false false false
      else if env.hashUploadRaises then
        mkRun { st with geojson := some zones }
          (Outcome.resp "Failed to save GeoJSON results." 500)
          true true false true false
      else
        match env.sync with
        | Except.ok a =>
          mkRun { st with geojson := some zones, hash := some current }
            (Outcome.resp (s!"Analysis complete. New GeoJSON saved. KML Drive sync: {a}.") 200)
            true true true true false
        | Except.error _ =>
          mkRun { st with geojson := some zones, hash := some current }
            (Outcome.resp "Analysis complete. GeoJSON saved. KML sync failed." 200)
            true true true true false

/-- `check_for_changes` of `src/main.py`: fetch the payload (a failure is
fatal with 500 and no state change), hash it with the canonical digest
`hashFn`, take the SKIP branch when the stored Change Record matches, and
otherwise run the analysis and publish phases. -/
def check_for_changes (hashFn : WData → String) (env : Env) (st : Gcs) : Run :=
  match env.fetch with
  | Except.error _ =>
    mkRun st (Outcome.resp "Failed to fetch data." 500) false false false false false
  | Except.ok wdata =>
    let current := hashFn wdata
    if skipHit st env current then runSkip st env
    else runCompute st env current wdata

/-! ### Containment query service -/

/-- Modelled from the spec: the Containment Query Service (spec 4.8 and the
query endpoint of spec 6) has no implementation under the repository sources;
only the spec describes it.  A zone's polygon is carried as its interior and
boundary point sets so that boundary-inclusive membership and strict
interiority are both expressible. -/
structure QueryZone where
  interior : Geom
  boundary : Geom
  properties : KmlProps
deriving DecidableEq

/-- Modelled from the spec: boundary-inclusive point-in-polygon membership. -/
def zoneContains (z : QueryZone) (c : Coord) : Bool :=
  decide (c ∈ z.interior) || decide (c ∈ z.boundary)

/-- Modelled from the spec: the structured result of the query endpoint. -/
structure QueryResult where
  in_no_swim_zone : Bool
  zone : Option QueryZone
deriving DecidableEq

/-- Modelled from the spec: `query(Coordinate) -> ZoneFeature|none`, a linear
scan over the Zone Collection returning the first zone whose polygon contains
the coordinate (boundary-inclusive), or a negative result. -/
def queryZones (zones : List QueryZone) (c : Coord) : QueryResult :=
  match zones.find? (fun z => zoneContains z c) with
  | some z => { in_no_swim_zone := true, zone := some z }
  | none => { in_no_swim_zone := false, zone := none }

/-! ## Theorems -/

/-- C3, counterexample.  The claim says an absent compliance value yields a
neutral style distinct from both the normal and the warning style, and that
absent compliance is never treated as COMPLIANT.  In the code the style
branch is two-state: an absent compliance gets exactly the style of a true
compliance, the pipeline defaults an absent `is_compliant` to `True` when
building the stored properties, and the description renders an absent
compliance as `Compliant`. -/
theorem compliance_absent_not_neutral_cex :
    complianceColor none = complianceColor (some true)
    ∧ pyGetBool none (some true) = some true
    ∧ complianceText none = complianceText (some true) := by
  refine ⟨rfl, rfl, rfl⟩

/-- C3, amended: the format converter's style selection is two-state, not
tri-state: compliance false yields the warning style (red); compliance true
and absent compliance both yield the same normal style (semi-transparent
blue), with no distinct neutral style; the pipeline defaults an absent
`is_compliant` to true (COMPLIANT) when it builds a feature's stored
`Column1.compliance`, and the description renders an absent compliance as
`Compliant`. -/
theorem compliance_two_state_styles :
    complianceColor (some false) = KmlColor.red
    ∧ complianceColor (some true) = KmlColor.blueAlpha
    ∧ complianceColor none = KmlColor.blueAlpha
    ∧ decide (KmlColor.red = KmlColor.blueAlpha) = false
    ∧ (∀ p : PlantProps, (mkKmlProps p).compliance = pyGetBool p.is_compliant (some true))
    ∧ complianceText none = "Compliant" := by
  refine ⟨rfl, rfl, rfl, rfl, fun p => rfl, rfl⟩

/-- C3, witness: the amended theorem evaluated on a facility record with no
`is_compliant` key. -/
theorem compliance_two_state_styles_witness :
    (mkKmlProps { code := some "A1" }).compliance = some true := by
  have h := compliance_two_state_styles.2.2.2.2.1 { code := some "A1" }
  exact h.trans rfl

/-- C8: the claim (matching the code's own comment that the access grant is
optional) says a grant failure after a successful upload is non-fatal and the
publish result is still returned.  The code places `permissions().create`
inside the same `try` whose handler re-raises, so a grant failure escapes
`upload_to_drive` as an error and no result is returned, even though the
object was created in the sink and is not rolled back.  This theorem
evaluates the code at the failing input: an empty sink, a successful create,
and a raising grant call. -/
theorem grant_failure_raises_after_create :
    (upload_to_drive false "kmlbytes" "wastewater_no_swim_zones.kml"
        (some "122jxF5nlwH8Re3ixoCjf2TuHyNCDuuxD") { files := [], nextId := 0 }).1
      = Except.error ()
    ∧ (upload_to_drive false "kmlbytes" "wastewater_no_swim_zones.kml"
        (some "122jxF5nlwH8Re3ixoCjf2TuHyNCDuuxD") { files := [], nextId := 0 }).2.files
      = [{ id := 0, name := "wastewater_no_swim_zones.kml"
         , parents := some "122jxF5nlwH8Re3ixoCjf2TuHyNCDuuxD"
         , content := "kmlbytes", trashed := false }] := by
  refine ⟨rfl, rfl⟩

/-- Inversion of a successful per-facility step: an emitted feature records a
non-empty difference of a buffer against the unified mask. -/
theorem processPlant_some_spec (bufferFn : Coord → Except Unit Geom)
    (unified : Geom) (plant : PlantProps) (f : Feature)
    (h : processPlant bufferFn unified plant = some f) :
    f.geometry ≠ ∅ ∧ Disjoint f.geometry unified ∧
      ∃ p buf, resolvePoint plant = some (some p) ∧ bufferFn p = Except.ok buf
        ∧ f.geometry = buf \ unified := by
  unfold processPlant at h
  split at h
  · exact absurd h (by simp)
  · exact absurd h (by simp)
  · rename_i p hp
    split at h
    · exact absurd h (by simp)
    · rename_i buf hbuf
      by_cases hdz : buf \ unified = ∅
      · simp [hdz] at h
      · simp only [if_neg hdz] at h
        cases h
        exact ⟨hdz, Finset.sdiff_disjoint, p, buf, hp, hbuf, rfl⟩

/-- C5: every feature emitted by `calculate_new_zones` has a non-empty
geometry that is disjoint from the unified region mask and equals a buffer's
set difference against that mask; and a facility whose buffer-minus-mask
difference is empty produces no feature. -/
theorem zone_feature_invariant :
    (∀ (bufferFn : Coord → Except Unit Geom) (regions : List Geom) (wdata : WData)
        (f : Feature), f ∈ calculate_new_zones bufferFn regions wdata →
        f.geometry ≠ ∅ ∧ Disjoint f.geometry (unifiedRegions regions) ∧
          ∃ p buf, bufferFn p = Except.ok buf
            ∧ f.geometry = buf \ unifiedRegions regions)
    ∧ (∀ (bufferFn : Coord → Except Unit Geom) (unified : Geom)
        (plant : PlantProps) (p : Coord) (buf : Geom),
        resolvePoint plant = some (some p) → bufferFn p = Except.ok buf →
        buf \ unified = ∅ → processPlant bufferFn unified plant = none) := by
  constructor
  · intro bufferFn regions wdata f hf
    unfold calculate_new_zones at hf
    split at hf
    · simp at hf
    · split at hf
      · simp at hf
      · obtain ⟨plant, _, hp⟩ := List.mem_filterMap.mp hf
        obtain ⟨hne, hdisj, p, buf, _, hb, hgeom⟩ :=
          processPlant_some_spec _ _ _ _ hp
        exact ⟨hne, hdisj, p, buf, hb, hgeom⟩
  · intro bufferFn unified plant p buf hres hb hempty
    simp [processPlant, hres, hb, hempty]

/-- C5, witness: the invariant evaluated on a one-facility run whose buffer
sticks out of the single region geometry by one point. -/
theorem zone_feature_invariant_witness :
    ({ geometry := {((0 : ℚ), (0 : ℚ))}
     , properties := mkKmlProps { longitude := some 0, latitude := some 0 } } : Feature).geometry ≠ ∅
    ∧ Disjoint
        ({ geometry := {((0 : ℚ), (0 : ℚ))}
         , properties := mkKmlProps { longitude := some 0, latitude := some 0 } } : Feature).geometry
        (unifiedRegions [{((2 : ℚ), (2 : ℚ))}])
    ∧ ∃ p buf,
        (fun _ : Coord =>
            (Except.ok ({((0 : ℚ), (0 : ℚ)), ((2 : ℚ), (2 : ℚ))} : Geom) : Except Unit Geom)) p
          = Except.ok buf
        ∧ ({ geometry := {((0 : ℚ), (0 : ℚ))}
           , properties := mkKmlProps { longitude := some 0, latitude := some 0 } } : Feature).geometry
          = buf \ unifiedRegions [{((2 : ℚ), (2 : ℚ))}] := by
  exact zone_feature_invariant.1
    (fun _ : Coord =>
      (Except.ok ({((0 : ℚ), (0 : ℚ)), ((2 : ℚ), (2 : ℚ))} : Geom) : Except Unit Geom))
    [{((2 : ℚ), (2 : ℚ))}]
    (WData.plainList [{ longitude := some 0, latitude := some 0 }])
    { geometry := {((0 : ℚ), (0 : ℚ))}
    , properties := mkKmlProps { longitude := some 0, latitude := some 0 } }
    (by decide)

/-- C6: the discharge point prefers a successfully parsed WKT field; on WKT
absence or parse failure it falls back to the explicit longitude/latitude
fields; a facility whose point does not resolve is skipped, a per-facility
exception (here: a raising buffer step) is converted into a skip, and a
skipped facility is simply dropped from the output while every other facility
is still processed — per-facility errors never fail the run. -/
theorem facility_resolution_isolated :
    (∀ (plant : PlantProps) (g : Option Coord),
        plant.receiverLocation = some (WktParse.ok g) → resolvePoint plant = some g)
    ∧ (∀ (plant : PlantProps) (lon lat : ℚ),
        (plant.receiverLocation = none ∨ plant.receiverLocation = some WktParse.fail) →
        plant.longitude = some lon → plant.latitude = some lat →
        resolvePoint plant = some (some (lon, lat)))
    ∧ (∀ (bufferFn : Coord → Except Unit Geom) (unified : Geom) (plant : PlantProps),
        resolvePoint plant = none → processPlant bufferFn unified plant = none)
    ∧ (∀ (bufferFn : Coord → Except Unit Geom) (unified : Geom) (plant : PlantProps)
        (p : Coord) (e : Unit),
        resolvePoint plant = some (some p) → bufferFn p = Except.error e →
        processPlant bufferFn unified plant = none)
    ∧ (∀ (bufferFn : Coord → Except Unit Geom) (regions : List Geom)
        (xs ys : List PlantProps) (bad : PlantProps),
        processPlant bufferFn (unifiedRegions regions) bad = none →
        calculate_new_zones bufferFn regions (WData.plainList (xs ++ bad :: ys))
          = calculate_new_zones bufferFn regions (WData.plainList (xs ++ ys))) := by
  refine ⟨?_, ?_, ?_, ?_, ?_⟩
  · intro plant g h
    simp [resolvePoint, h]
  · intro plant lon lat h hlon hlat
    rcases h with h | h <;> simp [resolvePoint, fallbackPoint, h, hlon, hlat]
  · intro bufferFn unified plant h
    simp [processPlant, h]
  · intro bufferFn unified plant p e hres hb
    simp [processPlant, hres, hb]
  · intro bufferFn regions xs ys bad h
    unfold calculate_new_zones
    split
    · rfl
    · simp [featuresToProcess, List.filterMap_append, List.filterMap_cons, h]

/-- C6, witness: a facility with no usable coordinates is dropped and the
(trivial) rest of the list is processed unchanged. -/
theorem facility_resolution_isolated_witness :
    calculate_new_zones (fun _ => Except.ok ∅) [{((1 : ℚ), (1 : ℚ))}]
        (WData.plainList ([] ++ ({} : PlantProps) :: []))
      = calculate_new_zones (fun _ => Except.ok ∅) [{((1 : ℚ), (1 : ℚ))}]
        (WData.plainList ([] ++ [])) := by
  exact facility_resolution_isolated.2.2.2.2 _ _ [] [] {} (by rfl)

/-- The Drive lookup query only inspects name, trash state and parent, so a
content overwrite does not change whether an object matches. -/
theorem matchesQuery_ignores_content (k : String) (fid : Option String)
    (f : DriveFile) (c : String) :
    matchesQuery k fid { f with content := c } = matchesQuery k fid f := rfl

/-- A freshly created object matches the query it was created under. -/
theorem matchesQuery_new (k : String) (fid : Option String) (i : Nat) (c : String) :
    matchesQuery k fid
      { id := i, name := k, parents := fid, content := c, trashed := false } = true := by
  cases fid <;> simp [matchesQuery]

/-- An in-place content update permutes with the lookup filter. -/
theorem filter_updateFileContent (k : String) (fid : Option String)
    (files : List DriveFile) (i : Nat) (c : String) :
    (updateFileContent files i c).filter (matchesQuery k fid)
      = (files.filter (matchesQuery k fid)).map
          (fun f => if f.id = i then { f with content := c } else f) := by
  unfold updateFileContent
  rw [List.filter_map]
  congr 1
  apply List.filter_congr
  intro f _
  show matchesQuery k fid (if f.id = i then { f with content := c } else f)
        = matchesQuery k fid f
  by_cases hf : f.id = i
  · rw [if_pos hf]
    exact matchesQuery_ignores_content k fid f c
  · rw [if_neg hf]

/-- C7: `upload_to_drive` is an upsert by logical key.  When an object
matching the key (within the optional folder scope) exists, its content is
overwritten in place and the action is `updated`; when none exists, a new
object is created and the action is `created`; and publishing the same key
twice into a sink holding no object for it yields `created` then `updated`,
after which the sink holds exactly one object for that key. -/
theorem upload_upsert_by_key :
    (∀ (c k : String) (fid : Option String) (st : DriveState) (f : DriveFile)
        (rest : List DriveFile),
        st.files.filter (matchesQuery k fid) = f :: rest →
        upload_to_drive true c k fid st
          = (Except.ok { file_id := f.id, action := "updated" },
             { st with files := updateFileContent st.files f.id c }))
    ∧ (∀ (c k : String) (fid : Option String) (st : DriveState),
        st.files.filter (matchesQuery k fid) = [] →
        upload_to_drive true c k fid st
          = (Except.ok { file_id := st.nextId, action := "created" },
             { files := st.files ++
                 [{ id := st.nextId, name := k, parents := fid
                  , content := c, trashed := false }]
             , nextId := st.nextId + 1 }))
    ∧ (∀ (c1 c2 k : String) (fid : Option String) (st : DriveState),
        st.files.filter (matchesQuery k fid) = [] →
        (upload_to_drive true c1 k fid st).1
            = Except.ok { file_id := st.nextId, action := "created" }
        ∧ (upload_to_drive true c2 k fid (upload_to_drive true c1 k fid st).2).1
            = Except.ok { file_id := st.nextId, action := "updated" }
        ∧ ((upload_to_drive true c2 k fid (upload_to_drive true c1 k fid st).2).2.files.filter
            (matchesQuery k fid)).length = 1) := by
  have hupd : ∀ (c k : String) (fid : Option String) (st : DriveState) (f : DriveFile)
      (rest : List DriveFile),
      st.files.filter (matchesQuery k fid) = f :: rest →
      upload_to_drive true c k fid st
        = (Except.ok { file_id := f.id, action := "updated" },
           { st with files := updateFileContent st.files f.id c }) := by
    intro c k fid st f rest h
    simp [upload_to_drive, h]
  have hcre : ∀ (c k : String) (fid : Option String) (st : DriveState),
      st.files.filter (matchesQuery k fid) = [] →
      upload_to_drive true c k fid st
        = (Except.ok { file_id := st.nextId, action := "created" },
           { files := st.files ++
               [{ id := st.nextId, name := k, parents := fid
                , content := c, trashed := false }]
           , nextId := st.nextId + 1 }) := by
    intro c k fid st h
    simp [upload_to_drive, h]
  refine ⟨hupd, hcre, ?_⟩
  intro c1 c2 k fid st h
  have e1 := hcre c1 k fid st h
  have hfilter :
      (upload_to_drive true c1 k fid st).2.files.filter (matchesQuery k fid)
        = [{ id := st.nextId, name := k, parents := fid
           , content := c1, trashed := false }] := by
    rw [e1]
    simp [List.filter_append, h, matchesQuery_new]
  have e2 := hupd c2 k fid (upload_to_drive true c1 k fid st).2 _ _ hfilter
  refine ⟨by rw [e1], by rw [e2], ?_⟩
  rw [e2]
  simp only [filter_updateFileContent, hfilter]
  simp

/-- C7, witness: publishing the KML key twice into an empty Drive folder. -/
theorem upload_upsert_by_key_witness :
    (upload_to_drive true "v1" "wastewater_no_swim_zones.kml" (some "folderA")
        { files := [], nextId := 0 }).1
      = Except.ok { file_id := 0, action := "created" }
    ∧ (upload_to_drive true "v2" "wastewater_no_swim_zones.kml" (some "folderA")
        (upload_to_drive true "v1" "wastewater_no_swim_zones.kml" (some "folderA")
          { files := [], nextId := 0 }).2).1
      = Except.ok { file_id := 0, action := "updated" }
    ∧ ((upload_to_drive true "v2" "wastewater_no_swim_zones.kml" (some "folderA")
        (upload_to_drive true "v1" "wastewater_no_swim_zones.kml" (some "folderA")
          { files := [], nextId := 0 }).2).2.files.filter
        (matchesQuery "wastewater_no_swim_zones.kml" (some "folderA"))).length = 1 := by
  exact upload_upsert_by_key.2.2 "v1" "v2" "wastewater_no_swim_zones.kml"
    (some "folderA") { files := [], nextId := 0 } (by rfl)

/-- C9: the containment query is a linear scan over the zone collection with
boundary-inclusive point-in-polygon membership: it returns a negative result
when no zone contains the coordinate, the first containing zone's metadata
otherwise, and a coordinate strictly inside a zone's polygon (and outside all
earlier zones) yields that zone with `in_no_swim_zone` true. -/
theorem query_first_containing_zone :
    (∀ (zones : List QueryZone) (c : Coord),
        (∀ z ∈ zones, zoneContains z c = false) →
        queryZones zones c = { in_no_swim_zone := false, zone := none })
    ∧ (∀ (zones : List QueryZone) (c : Coord) (z : QueryZone),
        zones.find? (fun z => zoneContains z c) = some z →
        queryZones zones c = { in_no_swim_zone := true, zone := some z })
    ∧ (∀ (pre post : List QueryZone) (z : QueryZone) (c : Coord),
        (∀ z' ∈ pre, zoneContains z' c = false) → c ∈ z.interior →
        queryZones (pre ++ z :: post) c
          = { in_no_swim_zone := true, zone := some z }) := by
  refine ⟨?_, ?_, ?_⟩
  · intro zones c h
    have hfind : zones.find? (fun z => zoneContains z c) = none := by
      rw [List.find?_eq_none]
      intro z hz
      simp [h z hz]
    simp [queryZones, hfind]
  · intro zones c z h
    simp [queryZones, h]
  · intro pre post z c hpre hc
    have hz : zoneContains z c = true := by
      simp only [zoneContains, Bool.or_eq_true, decide_eq_true_eq]
      exact Or.inl hc
    induction pre with
    | nil =>
      simp [queryZones, List.find?_cons_of_pos, hz]
    | cons a as ih =>
      have ha : zoneContains a c = false := hpre a (by simp)
      have has : ∀ z' ∈ as, zoneContains z' c = false := fun z' h' =>
        hpre z' (by simp [h'])
      have ihas := ih has
      simp only [queryZones] at ihas ⊢
      rw [List.cons_append, List.find?_cons_of_neg _ (by simp [ha])]
      exact ihas

/-- C9, witness: a coordinate strictly inside the single zone of the
collection is reported as in a no-swim zone with that zone's metadata. -/
theorem query_first_containing_zone_witness :
    queryZones
        ([] ++ ({ interior := {((5 : ℚ), (5 : ℚ))}, boundary := ∅
                , properties := { name := some "zoneA" } } : QueryZone) :: [])
        ((5 : ℚ), (5 : ℚ))
      = { in_no_swim_zone := true
        , zone := some { interior := {((5 : ℚ), (5 : ℚ))}, boundary := ∅
                       , properties := { name := some "zoneA" } } } := by
  exact query_first_containing_zone.2.2 [] []
    { interior := {((5 : ℚ), (5 : ℚ))}, boundary := ∅
    , properties := { name := some "zoneA" } }
    ((5 : ℚ), (5 : ℚ)) (by simp) (by decide)

/-- The MultiPolygon part loop keeps exactly the outer ring of each part. -/
theorem multiParts_outer (loc : String) (color : KmlColor) :
    ∀ (i : Nat) (polys : List (List Ring)),
      (multiParts loc color i polys).map (fun p => p.outerboundaryis)
        = polys.map outerRing := by
  intro i polys
  induction polys generalizing i with
  | nil => rfl
  | cons p rest ih => simp [multiParts, ih]

/-- A ring list's filled region is contained in the hole-free fill of its
outer ring. -/
theorem ringsRegion_subset (fill : Ring → Geom) (rings : List Ring) :
    ringsRegion fill rings ⊆ fill (outerRing rings) := by
  cases rings with
  | nil => simp [ringsRegion]
  | cons outer holes =>
    simp only [ringsRegion, outerRing, List.headD]
    exact Finset.sdiff_subset

/-- Each MultiPolygon part's filled region is covered by the emitted
placemark of that part. -/
theorem multiParts_covers (fill : Ring → Geom) (loc : String) (color : KmlColor) :
    ∀ (i : Nat) (polys : List (List Ring)),
      polys.foldr (fun p acc => ringsRegion fill p ∪ acc) ∅
        ⊆ kmlRegion fill (multiParts loc color i polys) := by
  intro i polys
  induction polys generalizing i with
  | nil => simp [multiParts, kmlRegion]
  | cons p rest ih =>
    simp only [multiParts, kmlRegion, List.foldr] at ih ⊢
    exact Finset.union_subset_union (ringsRegion_subset fill p) (ih (i + 1))

/-- C10: the KML converter emits, for each Polygon or MultiPolygon part, a
placemark carrying only the part's outer boundary ring — interior rings
(holes) are dropped — and consequently, under any geometric interpretation of
rings as filled regions, the area covered by the emitted KML placemarks is a
superset of the area of the GeoJSON geometry. -/
theorem kml_outer_rings_only :
    (∀ (props : KmlProps) (outer : Ring) (holes : List Ring),
        (kmlFeaturePolygons { geometry := GeoJsonGeom.polygon (outer :: holes)
                            , properties := props }).map (fun p => p.outerboundaryis)
          = [outer])
    ∧ (∀ (props : KmlProps) (polys : List (List Ring)),
        (kmlFeaturePolygons { geometry := GeoJsonGeom.multiPolygon polys
                            , properties := props }).map (fun p => p.outerboundaryis)
          = polys.map outerRing)
    ∧ (∀ (fill : Ring → Geom) (f : GeoFeature),
        geoRegion fill f.geometry ⊆ kmlRegion fill (kmlFeaturePolygons f)) := by
  refine ⟨?_, ?_, ?_⟩
  · intro props outer holes
    simp [kmlFeaturePolygons, outerRing]
  · intro props polys
    simp [kmlFeaturePolygons, multiParts_outer]
  · intro fill f
    obtain ⟨g, props⟩ := f
    cases g with
    | polygon rings =>
      simp only [kmlFeaturePolygons, geoRegion, kmlRegion, List.foldr]
      exact (ringsRegion_subset fill rings).trans Finset.subset_union_left
    | multiPolygon polys =>
      simp only [kmlFeaturePolygons, geoRegion]
      exact multiParts_covers fill _ _ 0 polys
    | point c => simp [kmlFeaturePolygons, geoRegion, kmlRegion]
    | otherType => simp [kmlFeaturePolygons, geoRegion, kmlRegion]

/-- C10, witness: a single polygon with one hole emits exactly its outer
ring, and the covered region under the pointwise interpretation of a ring as
its own vertex set is a superset of the holed region. -/
theorem kml_outer_rings_only_witness :
    (kmlFeaturePolygons
        { geometry := GeoJsonGeom.polygon
            [[((0 : ℚ), (0 : ℚ)), ((1 : ℚ), (0 : ℚ))], [((1 : ℚ), (0 : ℚ))]]
        , properties := {} }).map (fun p => p.outerboundaryis)
      = [[((0 : ℚ), (0 : ℚ)), ((1 : ℚ), (0 : ℚ))]] := by
  exact kml_outer_rings_only.1 {} [((0 : ℚ), (0 : ℚ)), ((1 : ℚ), (0 : ℚ))]
    [[((1 : ℚ), (0 : ℚ))]]

/-- On the recompute path, the Change Record changes only in a branch that
first uploaded the GeoJSON successfully or in the empty-zones branch. -/
theorem runCompute_hash_unchanged (st : Gcs) (env : Env) (current : String)
    (wdata : WData)
    (hpub : (runCompute st env current wdata).published = false)
    (hemp : (runCompute st env current wdata).emptyResult = false) :
    (runCompute st env current wdata).st.hash = st.hash := by
  unfold runCompute at hpub hemp ⊢
  cases hr : env.regions with
  | none => simp [hr, mkRun]
  | some per =>
    simp only [hr] at hpub hemp ⊢
    by_cases hz : calculate_new_zones env.bufferFn per wdata = [] <;>
      by_cases hhu : env.hashUploadRaises <;>
        by_cases hg : env.geojsonUploadRaises <;>
          cases hsy : env.sync <;>
            simp_all [mkRun]

/-- C1, counterexample.  The claim says the Change Record is written only
after the primary GeoJSON artifact has been successfully published.  A run
whose analysis yields no zones takes the empty-zones branch of
`check_for_changes`, which commits the hash without publishing anything: here
the hash blob goes from absent to the current digest while the GeoJSON
artifact is never written. -/
theorem hash_committed_without_publish_cex :
    (check_for_changes (fun _ => "h1")
        { fetch := Except.ok (WData.plainList []), regions := some [(∅ : Geom)] }
        { hash := none, geojson := none }).published = false
    ∧ (check_for_changes (fun _ => "h1")
        { fetch := Except.ok (WData.plainList []), regions := some [(∅ : Geom)] }
        { hash := none, geojson := none }).st.hash = some "h1"
    ∧ (check_for_changes (fun _ => "h1")
        { fetch := Except.ok (WData.plainList []), regions := some [(∅ : Geom)] }
        { hash := none, geojson := none }).st.geojson = none := by
  refine ⟨rfl, rfl, rfl⟩

/-- C1, amended: apart from the empty-zones branch — a run whose computed
zone list is empty commits the hash without publishing — the Change Record is
written only after the primary GeoJSON publish succeeds: in every run that
neither published the GeoJSON nor took the empty-zones branch, the stored
hash is left unchanged. -/
theorem hash_committed_only_after_publish_or_empty (hashFn : WData → String)
    (env : Env) (st : Gcs)
    (hpub : (check_for_changes hashFn env st).published = false)
    (hemp : (check_for_changes hashFn env st).emptyResult = false) :
    (check_for_changes hashFn env st).st.hash = st.hash := by
  unfold check_for_changes at hpub hemp ⊢
  cases hf : env.fetch with
  | error e => simp [hf, mkRun]
  | ok wdata =>
    simp only [hf] at hpub hemp ⊢
    by_cases hs : skipHit st env (hashFn wdata) = true
    · simp only [hs, if_pos] at hpub hemp ⊢
      unfold runSkip
      cases hsy : env.sync <;> simp [mkRun]
    · simp only [hs, if_neg, Bool.false_eq_true] at hpub hemp ⊢
      exact runCompute_hash_unchanged st env (hashFn wdata) wdata hpub hemp

/-- C1, witness: the amended theorem evaluated on a run whose fetch fails, so
nothing is published and the stored hash survives. -/
theorem hash_committed_only_after_publish_or_empty_witness :
    (check_for_changes (fun _ => "h1") { fetch := Except.error () }
        { hash := some "old", geojson := none }).st.hash = some "old" := by
  exact hash_committed_only_after_publish_or_empty (fun _ => "h1")
    { fetch := Except.error () } { hash := some "old", geojson := none } rfl rfl

/-- C2, counterexample.  The claim says a run over an empty Region dataset
fails as a fatal precondition violation and does not commit the Change
Record.  In the code `calculate_new_zones` returns `[]` on an empty region
list, so the run falls into the empty-zones branch: it returns HTTP 200 and
commits the hash. -/
theorem empty_regions_run_succeeds_cex :
    (check_for_changes (fun _ => "h2")
        { fetch := Except.ok (WData.plainList [{ longitude := some 1, latitude := some 2 }])
        , regions := some [] }
        { hash := none, geojson := none }).out
      = Outcome.resp "Analysis complete. No zones saved." 200
    ∧ (check_for_changes (fun _ => "h2")
        { fetch := Except.ok (WData.plainList [{ longitude := some 1, latitude := some 2 }])
        , regions := some [] }
        { hash := none, geojson := none }).st.hash = some "h2" := by
  refine ⟨rfl, rfl⟩

/-- C2, amended: on an empty Region dataset the run performs no per-facility
work (the zone calculation returns `[]` before the loop), never computes a
difference against the empty mask, and publishes no artifact; but the run
does not fail: it takes the empty-zones branch, and (when the hash upload
itself does not raise) returns HTTP 200 and commits the Change Record with
the current digest. -/
theorem empty_regions_behavior (hashFn : WData → String) (env : Env) (st : Gcs)
    (wdata : WData)
    (hfetch : env.fetch = Except.ok wdata)
    (hskip : skipHit st env (hashFn wdata) = false)
    (hreg : env.regions = some []) :
    calculate_new_zones env.bufferFn [] wdata = []
    ∧ (check_for_changes hashFn env st).st.geojson = st.geojson
    ∧ (check_for_changes hashFn env st).emptyResult = true
    ∧ (check_for_changes hashFn env st).published = false
    ∧ (env.hashUploadRaises = false →
        (check_for_changes hashFn env st).st.hash = some (hashFn wdata)
        ∧ (check_for_changes hashFn env st).out
            = Outcome.resp "Analysis complete. No zones saved." 200) := by
  have hcz : calculate_new_zones env.bufferFn [] wdata = [] := by
    simp [calculate_new_zones]
  have hrun : check_for_changes hashFn env st
      = runCompute st env (hashFn wdata) wdata := by
    unfold check_for_changes
    simp only [hfetch, hskip, Bool.false_eq_true, if_false]
  rw [hrun]
  unfold runCompute
  simp only [hreg, hcz, if_pos]
  by_cases hhu : env.hashUploadRaises = true <;> simp_all [mkRun]

/-- C2, witness: the amended theorem evaluated on a first run with one
facility and an empty region list. -/
theorem empty_regions_behavior_witness :
    calculate_new_zones
        (Env.bufferFn { fetch := Except.ok (WData.plainList [{ longitude := some 1, latitude := some 2 }])
                      , regions := some [] }) []
        (WData.plainList [{ longitude := some 1, latitude := some 2 }]) = []
    ∧ (check_for_changes (fun _ => "h3")
        { fetch := Except.ok (WData.plainList [{ longitude := some 1, latitude := some 2 }])
        , regions := some [] }
        { hash := none, geojson := none }).st.geojson = none
    ∧ (check_for_changes (fun _ => "h3")
        { fetch := Except.ok (WData.plainList [{ longitude := some 1, latitude := some 2 }])
        , regions := some [] }
        { hash := none, geojson := none }).emptyResult = true
    ∧ (check_for_changes (fun _ => "h3")
        { fetch := Except.ok (WData.plainList [{ longitude := some 1, latitude := some 2 }])
        , regions := some [] }
        { hash := none, geojson := none }).published = false
    ∧ ((Env.hashUploadRaises
          { fetch := Except.ok (WData.plainList [{ longitude := some 1, latitude := some 2 }])
          , regions := some [] }) = false →
        (check_for_changes (fun _ => "h3")
          { fetch := Except.ok (WData.plainList [{ longitude := some 1, latitude := some 2 }])
          , regions := some [] }
          { hash := none, geojson := none }).st.hash = some "h3"
        ∧ (check_for_changes (fun _ => "h3")
          { fetch := Except.ok (WData.plainList [{ longitude := some 1, latitude := some 2 }])
          , regions := some [] }
          { hash := none, geojson := none }).out
          = Outcome.resp "Analysis complete. No zones saved." 200) := by
  exact empty_regions_behavior (fun _ => "h3")
    { fetch := Except.ok (WData.plainList [{ longitude := some 1, latitude := some 2 }])
    , regions := some [] }
    { hash := none, geojson := none }
    (WData.plainList [{ longitude := some 1, latitude := some 2 }]) rfl rfl rfl

/-- C4: a run whose fetched payload hashes to the stored Change Record takes
the SKIP branch: `load_perifereies_data` is never called, no geometry is
recomputed, the GCS state (primary artifact and hash) is untouched, and the
KML Drive sync is still triggered as a self-repair step. -/
theorem skip_branch_self_repair (hashFn : WData → String) (env : Env) (st : Gcs)
    (wdata : WData) (last : String)
    (hfetch : env.fetch = Except.ok wdata)
    (hex : env.hashExistsRaises = false)
    (hstored : st.hash = some last)
    (hdl : env.hashDownloadRaises = false)
    (heq : hashFn wdata = last) :
    (check_for_changes hashFn env st).regionsAttempted = false
    ∧ (check_for_changes hashFn env st).recomputed = false
    ∧ (check_for_changes hashFn env st).st = st
    ∧ (check_for_changes hashFn env st).syncTriggered = true := by
  have hskip : skipHit st env (hashFn wdata) = true := by
    simp [skipHit, hex, hstored, hdl, heq]
  unfold check_for_changes
  simp only [hfetch, hskip, if_pos]
  unfold runSkip
  cases hsy : env.sync <;> simp [mkRun]

/-- C4, witness: a second run fetching a payload with the stored digest. -/
theorem skip_branch_self_repair_witness :
    (check_for_changes (fun _ => "same") { fetch := Except.ok WData.invalid }
        { hash := some "same", geojson := none }).regionsAttempted = false
    ∧ (check_for_changes (fun _ => "same") { fetch := Except.ok WData.invalid }
        { hash := some "same", geojson := none }).recomputed = false
    ∧ (check_for_changes (fun _ => "same") { fetch := Except.ok WData.invalid }
        { hash := some "same", geojson := none }).st
      = { hash := some "same", geojson := none }
    ∧ (check_for_changes (fun _ => "same") { fetch := Except.ok WData.invalid }
        { hash := some "same", geojson := none }).syncTriggered = true := by
  exact skip_branch_self_repair (fun _ => "same") { fetch := Except.ok WData.invalid }
    { hash := some "same", geojson := none } WData.invalid "same" rfl rfl rfl rfl rfl

end Wastewater
